import Mathlib

/-!
Shallow embedding of the TravelPlanner repository.

Source files embedded:
  * `app.py` (namespace `App`): the integrated application — the
    `TravelAgent` class hierarchy, `get_all_recommendations`, the budget
    split in `planner_ui`, `ensure_indexes_exist`, `add_data_to_index`
    and `seed_destination_data`.
  * `travel_planner.py` (namespace `TP`): the asyncio variant — the four
    per-category query dicts built in `main`, the agent prompts, and the
    `asyncio.gather` aggregation.
  * `embeddings.py` (namespace `Jina`): `JinaEmbeddings.embed_documents`.
  * `manage_db.py` (namespace `PC`, shared with `app.py`): `create_index`
    and the Pinecone control-plane/record-level operations.

External effects (Pinecone, the Jina embedding HTTP endpoint, the Groq
LLM) are modelled as explicit oracle parameters: an oracle returning
`none` stands for the corresponding Python call raising an exception,
`some v` for it returning `v`.  Python floats are modelled as `ℚ`
(exact arithmetic); vectors are `List ℚ` whose entries are opaque to
every property proved here.  A Python dict keyed by strings is modelled
as an association list (`List (String × _)`) with `List.lookup`.
-/

namespace App

/-- The query dict built in `planner_ui` (`app.py`): a single mapping
`{boarding, destination, num_people, budget}` handed to every agent.
`budget` is the Streamlit `number_input` integer (min 1000, step 1000). -/
structure Query where
  boarding : String
  destination : String
  num_people : Nat
  budget : Nat
  deriving DecidableEq

/-- The four concrete `TravelAgent` subclasses of `app.py`. -/
inductive AgentKind
  | hotel
  | transport
  | expense
  | tourist
  deriving DecidableEq

/-- `self.name` as set by each subclass constructor. -/
def agentName : AgentKind → String
  | .hotel => "Hotel Recommendations"
  | .transport => "Transport Options"
  | .expense => "Expense Breakdown"
  | .tourist => "Tourist Guide"

/-- `index_name` as set by each subclass constructor (`ExpenseAgent`
passes `None`). -/
def agentIndex : AgentKind → Option String
  | .hotel => some "hotels"
  | .transport => some "transport"
  | .expense => none
  | .tourist => some "tourist-places"

/-- `_build_search_query` of each subclass (f-string interpolation). -/
def build_search_query : AgentKind → Query → String
  | .hotel, q =>
      "Find hotels in " ++ q.destination ++ " for " ++ toString q.num_people
        ++ " people with budget " ++ toString q.budget
  | .transport, q => "Find transport from " ++ q.boarding ++ " to " ++ q.destination
  | .expense, _ => ""
  | .tourist, q => "Find tourist places in " ++ q.destination

/-- `_build_prompt_template` of each subclass.  The fixed decorative
layout (emoji headers, bullet skeletons) is carried over with its
placeholder names; whitespace is normalised and emoji dropped, which no
property below depends on. -/
def build_prompt_template : AgentKind → String
  | .hotel =>
      "Based on these hotel options: {results}\n" ++
      "Provide hotel recommendations for {num_people} travelers to {destination} with a budget of Rs. {budget}.\n" ++
      "Format the response as:\n" ++
      "Available Hotels:\n- [Hotel name] - [Price range] - [Brief description]\n" ++
      "Best Options:\n- For luxury: [recommendation]\n- For budget: [recommendation]\n- For families: [recommendation]\n"
  | .transport =>
      "Based on these transport options: {results}\n" ++
      "Provide transport recommendations from {boarding} to {destination} for {num_people} travelers.\n" ++
      "Format the response as:\n" ++
      "Available Options:\n- [Transport mode] - [Duration] - [Price range]\n" ++
      "Recommended Route:\n- Fastest: [recommendation]\n- Most comfortable: [recommendation]\n- Budget-friendly: [recommendation]\n"
  | .expense =>
      "Create a detailed expense breakdown for a trip to {destination}.\n" ++
      "Trip Details:\n- Total Budget: Rs. {budget}\n- Number of Travelers: {num_people}\n" ++
      "Format the response as:\n" ++
      "Daily Expenses (per person):\n- Food: Rs. [amount]/day\n- Local Transport: Rs. [amount]/day\n- Activities: Rs. [amount]/day\n- Miscellaneous: Rs. [amount]/day\n" ++
      "Accommodation:\n- Budget options: Rs. [amount] per night\n- Mid-range options: Rs. [amount] per night\n- Luxury options: Rs. [amount] per night\n" ++
      "Travel Costs:\n- Round-trip transportation: Rs. [amount] per person\n" ++
      "Money-Saving Tips:\n- [Practical tip for saving money]\n"
  | .tourist =>
      "Based on these attractions: {results}\n" ++
      "Provide tourist recommendations for {destination}.\n" ++
      "Format the response as:\n" ++
      "Must Visit Places:\n- [Attraction] - [Why it is special]\n" ++
      "Local Food:\n- [Food item] - [Brief description]\n" ++
      "Travel Tips:\n- [Practical tip for the destination]\n"

/-- Python `str()` of the retrieved document list, each document shown
by its text content. -/
def showResults (rs : List String) : String :=
  "[" ++ String.intercalate ", " rs ++ "]"

/-- `PromptTemplate.format(results=results, **query)`: substitution of
the named placeholders; placeholders absent from a template are simply
not substituted, extra kwargs are ignored. -/
def formatPrompt (t : String) (rs : List String) (q : Query) : String :=
  ((((t.replace "{results}" (showResults rs)).replace
      "{boarding}" q.boarding).replace
      "{destination}" q.destination).replace
      "{num_people}" (toString q.num_people)).replace
      "{budget}" (toString q.budget)

/-- The fully rendered prompt an agent hands to `llm.invoke`. -/
def build_prompt (k : AgentKind) (q : Query) (rs : List String) : String :=
  formatPrompt (build_prompt_template k) rs q

/-- Oracles for the three external services used by `app.py` agents.
`vectorstoreOk idx` tells whether `LangchainPinecone.from_existing_index`
succeeded in `TravelAgent.__init__` (on failure `self.vectorstore` is
`None`); `search idx query` is `vectorstore.similarity_search` (`none`
means the call raised); `llm prompt` is `llm.invoke` (`none` means the
call raised). -/
structure Env where
  vectorstoreOk : String → Bool
  search : String → String → Option (List String)
  llm : String → Option String

/-- The fixed per-category fallback string of
`TravelAgent.get_recommendations`. -/
def placeholder (k : AgentKind) : String :=
  "Unable to fetch " ++ agentName k ++ " recommendations. Please try again later."

/-- `TravelAgent.get_recommendations` (`app.py` lines 263-285).  The
whole body sits inside one `try`: if the agent has a usable vectorstore
the similarity search runs first and a raised search error is caught by
the same handler that catches generation errors; if the vectorstore is
absent (`ExpenseAgent`, or initialization failed) retrieval is skipped
and `results = []`.  Any caught error yields the placeholder — the
caller never sees an exception. -/
def get_recommendations (env : Env) (k : AgentKind) (q : Query) : String :=
  let attempt : Option String :=
    match agentIndex k with
    | some idx =>
        if env.vectorstoreOk idx then
          match env.search idx (build_search_query k q) with
          | none => none
          | some rs => env.llm (build_prompt k q rs)
        else
          env.llm (build_prompt k q [])
    | none => env.llm (build_prompt k q [])
  match attempt with
  | some content => content
  | none => placeholder k

/-- The agent list constructed in `get_all_recommendations` (`app.py`
lines 414-419), in source order. -/
def agents : List AgentKind := [.hotel, .transport, .expense, .tourist]

/-- `get_all_recommendations` (`app.py` lines 412-426): a sequential
`for` loop filling `results[agent.name]`; dict insertion order equals
the agent list order and the four names are distinct, so the dict is
this association list. -/
def get_all_recommendations (env : Env) (q : Query) : List (String × String) :=
  agents.map (fun k => (agentName k, get_recommendations env k q))

/-- `hotel_budget = budget * 0.4` computed in `planner_ui`. -/
def hotel_budget (budget : ℚ) : ℚ := budget * 0.4

/-- `transport_budget = budget * 0.3` computed in `planner_ui`. -/
def transport_budget (budget : ℚ) : ℚ := budget * 0.3

/-- `misc_budget = budget * 0.3` computed in `planner_ui`. -/
def misc_budget (budget : ℚ) : ℚ := budget * 0.3

/-- The query dict `planner_ui` builds and passes (unchanged, once) to
`get_all_recommendations`: note the `budget` field is the full total
budget, not any category share. -/
def planner_query (boarding destination : String) (num_people budget : Nat) : Query :=
  { boarding := boarding, destination := destination,
    num_people := num_people, budget := budget }

end App

namespace TP

/-- `hotel_query` dict of `travel_planner.py` `main`. -/
structure HotelQuery where
  destination : String
  num_people : Nat
  budget : ℚ
  deriving DecidableEq

/-- `transport_query` dict of `travel_planner.py` `main`. -/
structure TransportQuery where
  boarding : String
  destination : String
  num_people : Nat
  budget : ℚ
  deriving DecidableEq

/-- `expense_query` dict of `travel_planner.py` `main`. -/
structure ExpenseQuery where
  destination : String
  num_people : Nat
  budget : ℚ
  deriving DecidableEq

/-- `tourist_query` dict of `travel_planner.py` `main`: it has no
budget field at all. -/
structure TouristQuery where
  destination : String
  num_people : Nat
  deriving DecidableEq

/-- The budget split and per-agent query construction of
`travel_planner.py` `main` (lines 114-142), verbatim: the three shares
are computed once from the total and each category query carries its
own share. -/
def make_queries (boarding destination : String) (num_people : Nat) (budget : ℚ) :
    HotelQuery × TransportQuery × ExpenseQuery × TouristQuery :=
  let hotel_budget := budget * 0.4
  let transport_budget := budget * 0.3
  let misc_budget := budget * 0.3
  (⟨destination, num_people, hotel_budget⟩,
   ⟨boarding, destination, num_people, transport_budget⟩,
   ⟨destination, num_people, misc_budget⟩,
   ⟨destination, num_people⟩)

/-- The `HotelAgent` branch of `TravelAgent.get_recommendations` in
`travel_planner.py`: format the fixed prompt and await `llm.ainvoke`.
The awaited LLM is an oracle `llm : String → String` (result
semantics; scheduling is modelled separately in namespace `Sched`). -/
def hotel_rec (llm : String → String) (q : HotelQuery) : String :=
  llm ((("Suggest hotels in {destination} for {num_people} people with budget Rs. {budget}.\nFormat as:\nHotel Options:\n1. [Hotel Name]\n- Location: [area]\n- Room Types: [types]\n- Price Range: Rs. [range]\n- Amenities: [list]\n".replace
    "{destination}" q.destination).replace
    "{num_people}" (toString q.num_people)).replace
    "{budget}" (toString q.budget))

/-- The `TransportAgent` branch of `travel_planner.py`. -/
def transport_rec (llm : String → String) (q : TransportQuery) : String :=
  llm (((("Suggest transport from {boarding} to {destination} for {num_people} people with budget Rs. {budget}.\nFormat as:\nAvailable Options:\n1. [Transport Mode]\n- Departure: [times]\n- Duration: [hours]\n- Cost per person: Rs. [amount]\n- Total cost: Rs. [total]\n".replace
    "{boarding}" q.boarding).replace
    "{destination}" q.destination).replace
    "{num_people}" (toString q.num_people)).replace
    "{budget}" (toString q.budget))

/-- The `ExpenseAgent` branch of `travel_planner.py`. -/
def expense_rec (llm : String → String) (q : ExpenseQuery) : String :=
  llm ((("Create expense breakdown for {destination} trip for {num_people} people with budget Rs. {budget}.\nFormat as:\nDaily Expenses:\n- Food: Rs. [amount]/day\n- Local Transport: Rs. [amount]/day\n- Activities: Rs. [amount]/day\n- Miscellaneous: Rs. [amount]/day\n".replace
    "{destination}" q.destination).replace
    "{num_people}" (toString q.num_people)).replace
    "{budget}" (toString q.budget))

/-- The `TouristAgent` branch of `travel_planner.py`. -/
def tourist_rec (llm : String → String) (q : TouristQuery) : String :=
  llm (("Provide tourist guide for {destination} for {num_people} people.\nFormat as:\nMust Visit Places:\n1. [Place Name]\n- Best time: [when]\n- Entry fee: Rs. [amount]\n- Time needed: [duration]\nLocal Food:\n- [Dish names and where to try]\nTravel Tips:\n- [Important tips]\n".replace
    "{destination}" q.destination).replace
    "{num_people}" (toString q.num_people))

/-- `get_all_recommendations` of `travel_planner.py` (lines 80-95):
`asyncio.gather` over the four agent coroutines.  `gather` suspends
until every task finishes and returns their results in task order, so
its value is the list of the four per-agent results in the fixed order
Hotel, Transport, Expense, Tourist. -/
def get_all_recommendations (llm : String → String)
    (hq : HotelQuery) (tq : TransportQuery) (eq2 : ExpenseQuery) (uq : TouristQuery) :
    List String :=
  [hotel_rec llm hq, transport_rec llm tq, expense_rec llm eq2, tourist_rec llm uq]

end TP

namespace PC

/-- The configuration Pinecone stores for one index. -/
structure IndexCfg where
  dimension : Nat
  metric : String
  deriving DecidableEq

/-- The Pinecone control plane: the provisioned indexes with their
configurations, keyed by name. -/
abbrev State := List (String × IndexCfg)

/-- `pc.list_indexes().names()`. -/
def list_index_names (s : State) : List String := s.map Prod.fst

/-- `pc.create_index(name=..., dimension=1024, metric='cosine', ...)`
as issued by both `app.py` and `manage_db.py` — the provider call
itself, which simply provisions a new index. -/
def create_index_raw (s : State) (name : String) : State :=
  s ++ [(name, ⟨1024, "cosine"⟩)]

/-- `manage_db.create_index` (lines 31-47): create only when the name
is not already listed; otherwise a no-op (prints an info message). -/
def create_index (s : State) (name : String) : State :=
  if name ∈ list_index_names s then s else create_index_raw s name

/-- The `required_indexes` list of `app.ensure_indexes_exist`. -/
def required_indexes : List String :=
  ["hotels", "transport", "tourist-places", "expenses", "destinations"]

/-- The `for` loop of `app.ensure_indexes_exist`: `existing` is the
name list fetched once before the loop; `createOk n` tells whether the
provider accepts creating `n` (`false` = `pc.create_index` raised, in
which case the function reports the error and returns `False` at once,
keeping whatever was created so far).  Result: final control-plane
state, the returned boolean, and the `created` report list. -/
def ensureGo (createOk : String → Bool) (existing : List String) :
    List String → State → List String → State × Bool × List String
  | [], s, created => (s, true, created)
  | n :: ns, s, created =>
      if n ∈ existing then
        ensureGo createOk existing ns s created
      else if createOk n then
        ensureGo createOk existing ns (create_index_raw s n) (created ++ [n])
      else
        (s, false, created)

/-- `app.ensure_indexes_exist` (lines 137-162). -/
def ensure_indexes_exist (createOk : String → Bool) (s : State) :
    State × Bool × List String :=
  ensureGo createOk (list_index_names s) required_indexes s []

/-- A metadata scalar or list-of-scalar value. -/
inductive MVal
  | str (s : String)
  | num (q : ℚ)
  | strs (l : List String)
  deriving DecidableEq

/-- A metadata mapping. -/
abbrev Meta := List (String × MVal)

/-- One stored vector record: embedding values plus metadata. -/
structure Record where
  values : List ℚ
  metadata : Meta
  deriving DecidableEq

/-- The data plane of one index: records keyed by id. -/
abbrev RecIndex := List (String × Record)

/-- Pinecone `index.upsert` for a single vector: overwrite the record
at the given id if it exists (first occurrence, in place), otherwise
append a new record. -/
def upsertRec : RecIndex → String × Record → RecIndex
  | [], e => [e]
  | (k, v) :: rest, e =>
      if k = e.1 then e :: rest else (k, v) :: upsertRec rest e

/-- `add_data_to_index` (`app.py` lines 164-185, `manage_db.py` lines
49-68): embed the text, then upsert under `os.urandom(12).hex()`.  The
random draw is the explicit `freshId` parameter; the stored metadata is
the dict `{'text': text, **metadata}` (the administrative forms never
supply a `text` key of their own). -/
def add_data_to_index (embed : String → List ℚ) (freshId : String)
    (db : RecIndex) (text : String) (metadata : Meta) : RecIndex :=
  upsertRec db (freshId, ⟨embed text, ("text", .str text) :: metadata⟩)

/-- Per-destination fields of the `DESTINATION_DETAILS` catalog. -/
structure Details where
  latitude : ℚ
  longitude : ℚ
  best_season : String
  altitude : String
  known_for : List String
  description : String
  deriving DecidableEq

/-- The Kodaikanal entry of `DESTINATION_DETAILS`. -/
def kodaikanalDetails : Details :=
  { latitude := 10.2381, longitude := 77.4892,
    best_season := "October to March", altitude := "2133 meters",
    known_for := ["Princess of Hill stations", "Pine forests", "Kurinji flowers"],
    description := "Kodaikanal, known as the Princess of Hill stations, is a hill town in Tamil Nadu.\nFamous for its pine forests, cool climate, and the star-shaped Kodaikanal Lake." }

/-- The Munnar entry of `DESTINATION_DETAILS`. -/
def munnarDetails : Details :=
  { latitude := 10.0889, longitude := 77.0595,
    best_season := "September to May", altitude := "1600 meters",
    known_for := ["Tea plantations", "Neelakurinji flowers", "Wildlife"],
    description := "Munnar is a town in the Western Ghats mountain range in Kerala. A hill station\nand former resort for the British Raj elite, it is surrounded by rolling hills dotted with tea plantations." }

/-- The Ooty entry of `DESTINATION_DETAILS`. -/
def ootyDetails : Details :=
  { latitude := 11.4102, longitude := 76.6950,
    best_season := "October to June", altitude := "2240 meters",
    known_for := ["Queen of hill stations", "Nilgiri Mountain Railway", "Botanical Gardens"],
    description := "Ooty, also known as Udhagamandalam, is a hill station in Tamil Nadu. It is situated\nat an altitude of 2,240 meters above sea level in the Nilgiri Hills." }

/-- The `DESTINATION_DETAILS` catalog of `app.py` (lines 105-133), in
source order.  (`manage_db.py` repeats the Kodaikanal entry and elides
the rest with a comment; the `app.py` catalog is the complete one.) -/
def DESTINATION_DETAILS : List (String × Details) :=
  [("Kodaikanal", kodaikanalDetails),
   ("Munnar", munnarDetails),
   ("Ooty", ootyDetails)]

/-- The rich description synthesized per destination inside
`seed_destination_data` (f-string; indentation normalised). -/
def mkDescription (name : String) (d : Details) : String :=
  "\nDestination: " ++ name ++
  "\nBest Season: " ++ d.best_season ++
  "\nAltitude: " ++ d.altitude ++
  "\nKnown For: " ++ String.intercalate ", " d.known_for ++
  "\n" ++ d.description ++ "\n"

/-- The metadata dict stored for one seeded destination:
`{'name': destination, 'text': description, **details}`. -/
def destMeta (name : String) (d : Details) (desc : String) : Meta :=
  [("name", .str name), ("text", .str desc),
   ("latitude", .num d.latitude), ("longitude", .num d.longitude),
   ("best_season", .str d.best_season), ("altitude", .str d.altitude),
   ("known_for", .strs d.known_for), ("description", .str d.description)]

/-- The deterministic seed id `f"dest_{destination.lower()}"`
(Python `str.lower`, modelled per character — the catalog names are
plain ASCII). -/
def destId (name : String) : String :=
  "dest_" ++ String.mk (name.data.map Char.toLower)

/-- One seeding iteration payload: the record written for one catalog
destination (deterministic id, embedded rich description, metadata). -/
def seedEntry (embed : String → List ℚ) (p : String × Details) : String × Record :=
  (destId p.1,
   ⟨embed (mkDescription p.1 p.2), destMeta p.1 p.2 (mkDescription p.1 p.2)⟩)

/-- The seeding loop of `seed_destination_data` (`app.py` lines
187-232, `manage_db.py` lines 70-115) on the `destinations` index: one
upsert per catalog destination under its deterministic id.  `embed` is
the (deterministic) embedding oracle. -/
def seed_destination_data (embed : String → List ℚ) (db : RecIndex) : RecIndex :=
  DESTINATION_DETAILS.foldl (fun acc p => upsertRec acc (seedEntry embed p)) db

end PC

namespace Jina

/-- The remote embedding endpoint as seen by one `requests.post` for
one input text: the HTTP status code and, when the status is 200, the
returned 1024-dimensional embedding. -/
abbrev Api := String → Nat × List ℚ

/-- `JinaEmbeddings.embed_documents` (`embeddings.py` lines 13-32): one
outbound call per input text, in input order; a 200 response appends
the embedding, any other status raises
`Exception(f"API Request Failed: {response.status_code}")`, discarding
everything collected so far. -/
def embed_documents (api : Api) : List String → Except String (List (List ℚ))
  | [] => .ok []
  | t :: ts =>
      if (api t).1 = 200 then
        match embed_documents api ts with
        | .ok rest => .ok ((api t).2 :: rest)
        | .error e => .error e
      else
        .error ("API Request Failed: " ++ toString (api t).1)

end Jina

namespace Sched

/-- The two I/O operations an `app.py` agent can perform. -/
inductive Op
  | search
  | gen
  deriving DecidableEq

/-- Issue/completion boundary of one I/O operation. -/
inductive Phase
  | issue
  | complete
  deriving DecidableEq

/-- An execution event: agent position (in the fixed list Hotel,
Transport, Expense, Tourist), which operation, which boundary. -/
abbrev Ev := Fin 4 × Op × Phase

/-- The I/O operations of `app.py` agent `i`, in program order: every
agent performs a similarity search then a generation call, except the
`ExpenseAgent` (position 2), which has no index and only generates. -/
def appAgentOps (i : Fin 4) : List Op :=
  if i = 2 then [Op.gen] else [Op.search, Op.gen]

/-- The events of one synchronous `get_recommendations` call: each
operation is issued and completes before the next starts. -/
def seqEvents (i : Fin 4) : List Ev :=
  (appAgentOps i).flatMap (fun o => [(i, o, Phase.issue), (i, o, Phase.complete)])

/-- The unique execution trace of `app.py`'s `get_all_recommendations`:
the `for` loop runs each agent's synchronous call to completion before
starting the next. -/
def appSchedule : List Ev := (List.finRange 4).flatMap seqEvents

/-- Agent `i` has an operation in flight after the event prefix `p`. -/
def inFlight (p : List Ev) (i : Fin 4) : Bool :=
  p.any (fun e =>
    decide (e.1 = i) && decide (e.2.2 = Phase.issue) &&
    !(p.any (fun x => decide (x = (i, e.2.1, Phase.complete)))))

/-- How many agents have an operation in flight after prefix `p`. -/
def concurrentCount (p : List Ev) : Nat :=
  ((List.finRange 4).filter (fun i => inFlight p i)).length

/-- Every execution point (prefix) of the `app.py` trace. -/
def appPoints : List (List Ev) :=
  (List.range (appSchedule.length + 1)).map (fun n => appSchedule.take n)

/-- Events of the `travel_planner.py` coroutines: each agent awaits
exactly one I/O operation (`llm.ainvoke`), so only the issue/completion
boundary matters. -/
abbrev TEv := Fin 4 × Phase

/-- The event sequence of coroutine `i`: issue its generation call,
then see it complete. -/
def tpAgentEvents (i : Fin 4) : List TEv := [(i, Phase.issue), (i, Phase.complete)]

/-- A cooperative-scheduling execution of `asyncio.gather` over the
four coroutines: any interleaving that restricts, per agent, to that
agent's own event order. -/
def isTPSchedule (s : List TEv) : Bool :=
  decide (s.length = 8) &&
  (List.finRange 4).all (fun i =>
    decide (s.filter (fun e => decide (e.1 = i)) = tpAgentEvents i))

/-- Agent `i` is in flight after the prefix `p` of a gather schedule. -/
def tpInFlight (p : List TEv) (i : Fin 4) : Bool :=
  p.any (fun x => decide (x = (i, Phase.issue))) &&
  !(p.any (fun x => decide (x = (i, Phase.complete))))

/-- How many of the four gathered coroutines are in flight after `p`. -/
def tpConcurrent (p : List TEv) : Nat :=
  ((List.finRange 4).filter (fun i => tpInFlight p i)).length

/-- The schedule in which the event loop issues all four generation
calls before any of them completes. -/
def tpAllIssued : List TEv :=
  [(0, Phase.issue), (1, Phase.issue), (2, Phase.issue), (3, Phase.issue),
   (0, Phase.complete), (1, Phase.complete), (2, Phase.complete), (3, Phase.complete)]

end Sched

namespace Fix

/-- Concrete trip query used by witnesses (the spec scenario
Chennai → Munnar, 2 travellers, total budget 20000). -/
def q1 : App.Query :=
  { boarding := "Chennai", destination := "Munnar", num_people := 2, budget := 20000 }

/-- Environment in which the generative call fails exactly on the
Transport prompt of `q1` under empty retrieved context, and every
retrieval succeeds with an empty result list. -/
def env1 : App.Env :=
  { vectorstoreOk := fun _ => true,
    search := fun _ _ => some [],
    llm := fun s =>
      if s = App.build_prompt App.AgentKind.transport q1 [] then none else some "OK" }

/-- Environment whose similarity search always raises while its
generative call always succeeds with the text GENERATED. -/
def envSearchFails : App.Env :=
  { vectorstoreOk := fun _ => true,
    search := fun _ _ => none,
    llm := fun _ => some "GENERATED" }

/-- Environment whose vectorstore initialization failed for every
index, with an always-succeeding generative call. -/
def envNoStore : App.Env :=
  { vectorstoreOk := fun _ => false,
    search := fun _ _ => none,
    llm := fun _ => some "GENERATED" }

/-- Embedding endpoint oracle that rejects the text a with status 500
and accepts everything else. -/
def apiFail0 : Jina.Api := fun t => if t = "a" then (500, []) else (200, [1])

/-- Embedding endpoint oracle that rejects the text b with status 500
and accepts everything else. -/
def apiFail1 : Jina.Api := fun t => if t = "b" then (500, []) else (200, [1])

/-- A Pinecone control plane already holding a hotels index whose
configuration (dimension 512, euclidean metric) differs from the
values `ensure_indexes_exist` would configure (1024, cosine). -/
def sBad : PC.State := [("hotels", { dimension := 512, metric := "euclidean" })]

end Fix

/-- C2: for every total budget, `planner_ui` (`app.py`) and `main`
(`travel_planner.py`) derive hotelShare = 0.4 × budget,
transportShare = 0.3 × budget and miscShare = 0.3 × budget, and the
three shares sum to the total budget exactly (arithmetic modelled
exactly over ℚ, matching the claim's allowance for floating
precision). -/
theorem c2_budget_allocation_exact (b : ℚ) (bo de : String) (n : Nat) :
    App.hotel_budget b = 0.4 * b ∧
    App.transport_budget b = 0.3 * b ∧
    App.misc_budget b = 0.3 * b ∧
    App.hotel_budget b + App.transport_budget b + App.misc_budget b = b ∧
    (TP.make_queries bo de n b).1.budget = 0.4 * b ∧
    (TP.make_queries bo de n b).2.1.budget = 0.3 * b ∧
    (TP.make_queries bo de n b).2.2.1.budget = 0.3 * b ∧
    (TP.make_queries bo de n b).1.budget + (TP.make_queries bo de n b).2.1.budget
      + (TP.make_queries bo de n b).2.2.1.budget = b := by
  refine ⟨?_, ?_, ?_, ?_, ?_, ?_, ?_, ?_⟩ <;>
    · simp only [App.hotel_budget, App.transport_budget, App.misc_budget, TP.make_queries]
      ring

/-- C3 counterexample: the claim fails on `app.py`.  For the concrete
trip Chennai → Munnar, 2 travellers, total budget 10000, the query
object `planner_ui` hands to `get_all_recommendations` — and hence to
the Hotel agent — carries budget 10000, while the hotel share computed
in the same function is 4000, so the Hotel agent does not receive the
hotel share as its budget parameter. -/
theorem c3_counterexample :
    ((App.planner_query "Chennai" "Munnar" 2 10000).budget : ℚ) = 10000 ∧
    App.hotel_budget 10000 = 4000 ∧
    ¬ ((App.planner_query "Chennai" "Munnar" 2 10000).budget : ℚ)
        = App.hotel_budget 10000 := by
  refine ⟨by norm_num [App.planner_query], by norm_num [App.hotel_budget], ?_⟩
  norm_num [App.planner_query, App.hotel_budget]

/-- C3 amended: in `travel_planner.py` the caller computes the three
shares once and passes the category share as the budget of the Hotel,
Transport and Expense queries while the Tourist query carries no budget
field; in `app.py`, by contrast, `planner_ui` passes one shared query
holding the full total budget to all four agents (each result entry is
that same query evaluated by its agent), the shares being computed for
display only. -/
theorem c3_amended_budget_routing (bo de : String) (n : Nat) (b : ℚ)
    (env : App.Env) (q : App.Query) :
    (TP.make_queries bo de n b).1 = ⟨de, n, b * 0.4⟩ ∧
    (TP.make_queries bo de n b).2.1 = ⟨bo, de, n, b * 0.3⟩ ∧
    (TP.make_queries bo de n b).2.2.1 = ⟨de, n, b * 0.3⟩ ∧
    (TP.make_queries bo de n b).2.2.2 = ⟨de, n⟩ ∧
    App.get_all_recommendations env q
      = (App.agents.map (fun k => (App.agentName k, App.get_recommendations env k q))) ∧
    (∀ k : App.AgentKind,
      (App.get_all_recommendations env q).lookup (App.agentName k)
        = some (App.get_recommendations env k q)) := by
  refine ⟨rfl, rfl, rfl, rfl, rfl, ?_⟩
  intro k
  cases k <;> rfl

/-- C4 counterexample: for the Hotel category (which has an index), in
an environment whose similarity search raises while the generative call
always succeeds with the text GENERATED, the agent returns the fixed
placeholder — the retrieval failure alone kills the recommendation
instead of degrading to empty context and generating. -/
theorem c4_counterexample :
    App.get_recommendations Fix.envSearchFails App.AgentKind.hotel Fix.q1
      = App.placeholder App.AgentKind.hotel ∧
    (∀ s, Fix.envSearchFails.llm s = some "GENERATED") ∧
    App.placeholder App.AgentKind.hotel ≠ "GENERATED" := by
  refine ⟨rfl, fun s => rfl, by decide⟩

/-- C4 amended: the agent proceeds with empty retrieved context and
still makes the generative call only when its vectorstore is
unavailable (initialization failed, `self.vectorstore = None`); when
the vectorstore exists and the similarity-search call itself raises,
the agent's catch-all handler returns the fixed placeholder for that
category (no exception reaches the caller), so a retrieval failure does
replace the recommendation by the placeholder. -/
theorem c4_amended_retrieval_failure (env : App.Env) (q : App.Query)
    (k : App.AgentKind) (idx : String) (h : App.agentIndex k = some idx) :
    (env.vectorstoreOk idx = false →
      App.get_recommendations env k q
        = match env.llm (App.build_prompt k q []) with
          | some content => content
          | none => App.placeholder k) ∧
    (env.vectorstoreOk idx = true →
      env.search idx (App.build_search_query k q) = none →
      App.get_recommendations env k q = App.placeholder k) := by
  constructor
  · intro hv
    simp [App.get_recommendations, h, hv]
  · intro hv hs
    simp [App.get_recommendations, h, hv, hs]

/-- C4 witness: both branches of the amended theorem instantiated — the
no-vectorstore environment generates from empty context, and the
failing-search environment yields the Hotel placeholder. -/
theorem c4_amended_retrieval_failure_witness :
    App.get_recommendations Fix.envNoStore App.AgentKind.hotel Fix.q1 = "GENERATED" ∧
    App.get_recommendations Fix.envSearchFails App.AgentKind.tourist Fix.q1
      = App.placeholder App.AgentKind.tourist := by
  constructor
  · have h := (c4_amended_retrieval_failure Fix.envNoStore Fix.q1
      App.AgentKind.hotel "hotels" rfl).1 rfl
    simpa using h
  · exact (c4_amended_retrieval_failure Fix.envSearchFails Fix.q1
      App.AgentKind.tourist "tourist-places" rfl).2 rfl rfl

/-- Helper for C1: an agent's result depends only on the retrieval
oracles and on the generative oracle's values at that agent's own
prompts. -/
theorem get_recommendations_frame (env env' : App.Env) (q : App.Query)
    (k : App.AgentKind)
    (hsearch : env'.search = env.search)
    (hstore : env'.vectorstoreOk = env.vectorstoreOk)
    (hllm : ∀ r, env'.llm (App.build_prompt k q r) = env.llm (App.build_prompt k q r)) :
    App.get_recommendations env' k q = App.get_recommendations env k q := by
  unfold App.get_recommendations
  rw [hsearch, hstore]
  cases hi : App.agentIndex k with
  | none => simp [hllm]
  | some idx =>
      by_cases hv : env.vectorstoreOk idx
      · cases hs : env.search idx (App.build_search_query k q) with
        | none => simp [hv, hs]
        | some rs => simp [hv, hs, hllm]
      · simp [hv, hllm]

/-- C1: for every environment and trip query, `get_all_recommendations`
(`app.py`) returns exactly four entries, keyed (in order) by the fixed
agent names Hotel Recommendations, Transport Options, Expense Breakdown
and Tourist Guide; every entry is the total (never-raising) string
produced by its own agent; if the generative call fails for the
Transport category (its retrieved context being `rs`), the Transport
entry is exactly the fixed placeholder string; and the other three
entries do not depend on the generative outcomes at Transport prompts —
any environment differing only there yields the same three entries. -/
theorem c1_plan_trip_four_entries (env env' : App.Env) (q : App.Query)
    (rs : List String) :
    (App.get_all_recommendations env q).map Prod.fst
      = ["Hotel Recommendations", "Transport Options",
         "Expense Breakdown", "Tourist Guide"] ∧
    (App.get_all_recommendations env q).length = 4 ∧
    (∀ k : App.AgentKind,
      (App.get_all_recommendations env q).lookup (App.agentName k)
        = some (App.get_recommendations env k q)) ∧
    (env.vectorstoreOk "transport" = true →
      env.search "transport" (App.build_search_query App.AgentKind.transport q) = some rs →
      env.llm (App.build_prompt App.AgentKind.transport q rs) = none →
      (App.get_all_recommendations env q).lookup "Transport Options"
        = some ("Unable to fetch Transport Options recommendations. Please try again later.")) ∧
    ((env'.search = env.search ∧ env'.vectorstoreOk = env.vectorstoreOk ∧
      (∀ k : App.AgentKind, k ≠ App.AgentKind.transport → ∀ r,
        env'.llm (App.build_prompt k q r) = env.llm (App.build_prompt k q r))) →
      ∀ k : App.AgentKind, k ≠ App.AgentKind.transport →
        (App.get_all_recommendations env' q).lookup (App.agentName k)
          = (App.get_all_recommendations env q).lookup (App.agentName k)) := by
  refine ⟨rfl, rfl, fun k => by cases k <;> rfl, ?_, ?_⟩
  · intro hv hs hl
    have : App.get_recommendations env App.AgentKind.transport q
        = App.placeholder App.AgentKind.transport := by
      simp [App.get_recommendations, App.agentIndex, hv, hs, hl]
    calc (App.get_all_recommendations env q).lookup "Transport Options"
        = some (App.get_recommendations env App.AgentKind.transport q) := by rfl
      _ = some ("Unable to fetch Transport Options recommendations. Please try again later.") := by
          rw [this]; rfl
  · rintro ⟨hsearch, hstore, hllm⟩ k hk
    have hfr : App.get_recommendations env' k q = App.get_recommendations env k q :=
      get_recommendations_frame env env' q k hsearch hstore (hllm k hk)
    have hl : ∀ (e : App.Env) (j : App.AgentKind),
        (App.get_all_recommendations e q).lookup (App.agentName j)
          = some (App.get_recommendations e j q) := fun e j => by cases j <;> rfl
    rw [hl env' k, hl env k, hfr]

/-- C1 witness: in the concrete environment `Fix.env1` — retrieval
returning empty context everywhere, generation failing exactly on the
Transport prompt of the Chennai → Munnar query — the mapping has the
four fixed keys and the Transport entry is the placeholder. -/
theorem c1_plan_trip_four_entries_witness :
    (App.get_all_recommendations Fix.env1 Fix.q1).map Prod.fst
      = ["Hotel Recommendations", "Transport Options",
         "Expense Breakdown", "Tourist Guide"] ∧
    (App.get_all_recommendations Fix.env1 Fix.q1).lookup "Transport Options"
      = some ("Unable to fetch Transport Options recommendations. Please try again later.") := by
  have h := c1_plan_trip_four_entries Fix.env1 Fix.env1 Fix.q1 []
  refine ⟨h.1, h.2.2.2.1 rfl rfl ?_⟩
  show Fix.env1.llm (App.build_prompt App.AgentKind.transport Fix.q1 []) = none
  simp [Fix.env1]

/-- C5 counterexample: the claim fails on `app.py`.  Its
`get_all_recommendations` is a synchronous `for` loop, so its execution
trace is the fixed agent-by-agent event sequence `appSchedule`; at every
one of its execution points at most one agent has an operation in
flight (never four, let alone eight I/O operations), and the trace is
exactly the concatenation of the four agents' complete event blocks —
the agents run one after another. -/
theorem c5_counterexample :
    (Sched.appPoints.all (fun p => Nat.ble (Sched.concurrentCount p) 1)) = true ∧
    Sched.appSchedule
      = Sched.seqEvents 0 ++ Sched.seqEvents 1 ++ Sched.seqEvents 2 ++ Sched.seqEvents 3 ∧
    Sched.concurrentCount (Sched.appSchedule.take 1) = 1 := by
  refine ⟨by decide, by decide, by decide⟩

/-- C5 amended: `travel_planner.py`'s `get_all_recommendations` gathers
the four agent coroutines: its result is the list of all four agents'
results in fixed task order (length 4), any cooperative schedule must
contain every agent's completion before gather returns (join
semantics), and the schedule issuing all four generation calls before
any completes is admissible, at which point all four agents — 4 I/O
operations, one generation call each, these agents performing no
retrieval — are in flight simultaneously; `app.py`'s
`get_all_recommendations`, by contrast, runs the four agents strictly
sequentially with at most one operation in flight at any point. -/
theorem c5_amended_concurrency :
    (∀ (llm : String → String) (hq : TP.HotelQuery) (tq : TP.TransportQuery)
        (eq2 : TP.ExpenseQuery) (uq : TP.TouristQuery),
      TP.get_all_recommendations llm hq tq eq2 uq
        = [TP.hotel_rec llm hq, TP.transport_rec llm tq,
           TP.expense_rec llm eq2, TP.tourist_rec llm uq] ∧
      (TP.get_all_recommendations llm hq tq eq2 uq).length = 4) ∧
    (∀ s : List Sched.TEv, Sched.isTPSchedule s = true →
      ∀ i : Fin 4, (i, Sched.Phase.complete) ∈ s) ∧
    Sched.isTPSchedule Sched.tpAllIssued = true ∧
    Sched.tpConcurrent (Sched.tpAllIssued.take 4) = 4 ∧
    (Sched.appPoints.all (fun p => Nat.ble (Sched.concurrentCount p) 1)) = true := by
  refine ⟨fun llm hq tq eq2 uq => ⟨rfl, rfl⟩, ?_, by decide, by decide, by decide⟩
  intro s hs i
  unfold Sched.isTPSchedule at hs
  rw [Bool.and_eq_true] at hs
  have hall := List.all_eq_true.mp hs.2 i (List.mem_finRange i)
  have hfilter := of_decide_eq_true hall
  have hmem : (i, Sched.Phase.complete) ∈ Sched.tpAgentEvents i := by
    simp [Sched.tpAgentEvents]
  rw [← hfilter] at hmem
  exact (List.mem_filter.mp hmem).1

/-- C5 witness: the join-semantics component applied to the concrete
all-issued schedule — it is a valid gather schedule and contains agent
0's completion. -/
theorem c5_amended_concurrency_witness :
    Sched.isTPSchedule Sched.tpAllIssued = true ∧
    ((0 : Fin 4), Sched.Phase.complete) ∈ Sched.tpAllIssued :=
  ⟨by decide, c5_amended_concurrency.2.1 Sched.tpAllIssued (by decide) 0⟩

/-- Helper: a successful association-list lookup survives appending. -/
theorem lookup_append_some {β : Type} (n : String) (v : β)
    (s t : List (String × β)) (h : List.lookup n s = some v) :
    List.lookup n (s ++ t) = some v := by
  induction s with
  | nil => simp [List.lookup] at h
  | cons e s' ih =>
      obtain ⟨k, w⟩ := e
      simp only [List.cons_append, List.lookup] at h ⊢
      cases hk : (n == k) with
      | true => simpa [hk] using h
      | false =>
          rw [hk] at h
          exact ih h

/-- Helper: lookup misses a list none of whose keys match. -/
theorem lookup_none_of_keys_ne {β : Type} (n : String)
    (t : List (String × β)) (h : ∀ e ∈ t, e.1 ≠ n) :
    List.lookup n t = none := by
  induction t with
  | nil => rfl
  | cons e t' ih =>
      obtain ⟨k, w⟩ := e
      have hk : (n == k) = false := by
        have := h (k, w) (List.mem_cons_self _ _)
        simp only [ne_eq] at this
        exact beq_eq_false_iff_ne.mpr fun hnk => this hnk.symm
      simp only [List.lookup, hk]
      exact ih fun x hx => h x (List.mem_cons_of_mem _ hx)

/-- Helper: a failed lookup defers to the appended tail. -/
theorem lookup_append_none {β : Type} (n : String)
    (s t : List (String × β)) (h : List.lookup n s = none) :
    List.lookup n (s ++ t) = List.lookup n t := by
  induction s with
  | nil => rfl
  | cons e s' ih =>
      obtain ⟨k, w⟩ := e
      simp only [List.cons_append, List.lookup] at h ⊢
      cases hk : (n == k) with
      | true => simp [hk] at h
      | false =>
          rw [hk] at h
          exact ih h

/-- Helper: a successful lookup means the key is listed. -/
theorem lookup_some_mem_keys {β : Type} (n : String) (v : β)
    (s : List (String × β)) (h : List.lookup n s = some v) :
    n ∈ s.map Prod.fst := by
  induction s with
  | nil => simp [List.lookup] at h
  | cons e s' ih =>
      obtain ⟨k, w⟩ := e
      simp only [List.lookup] at h
      cases hk : (n == k) with
      | true => simp [beq_iff_eq.mp hk]
      | false =>
          rw [hk] at h
          exact List.mem_cons_of_mem _ (ih h)

/-- Helper: the ensure loop only appends fresh entries — the final
control-plane state is the initial one plus entries whose names were
not listed when the loop started. -/
theorem ensureGo_append (ok : String → Bool) (ex : List String) :
    ∀ (req : List String) (s : PC.State) (c : List String),
    ∃ t, (PC.ensureGo ok ex req s c).1 = s ++ t ∧ ∀ e ∈ t, e.1 ∉ ex := by
  intro req
  induction req with
  | nil => exact fun s c => ⟨[], by simp [PC.ensureGo], by simp⟩
  | cons n ns ih =>
      intro s c
      by_cases hn : n ∈ ex
      · simpa [PC.ensureGo, hn] using ih s c
      · by_cases hok : ok n = true
        · obtain ⟨t, ht, hke⟩ := ih (PC.create_index_raw s n) (c ++ [n])
          refine ⟨(n, ⟨1024, "cosine"⟩) :: t, ?_, ?_⟩
          · rw [PC.ensureGo]
            simp only [hn, if_false, hok, if_true]
            rw [ht, PC.create_index_raw]
            simp
          · intro e he
            rcases List.mem_cons.mp he with rfl | he'
            · exact hn
            · exact hke e he'
        · exact ⟨[], by simp [PC.ensureGo, hn, hok], by simp⟩

/-- Helper: names present before the ensure loop are still present
after it. -/
theorem ensureGo_names_mono (ok : String → Bool) (ex : List String)
    (req : List String) (s : PC.State) (c : List String) (n : String)
    (h : n ∈ PC.list_index_names s) :
    n ∈ PC.list_index_names (PC.ensureGo ok ex req s c).1 := by
  obtain ⟨t, ht, -⟩ := ensureGo_append ok ex req s c
  rw [ht, PC.list_index_names, List.map_append]
  exact List.mem_append_left _ h

/-- Helper: when the ensure loop returns `True`, every requested name
is listed afterwards (given the pre-fetched listing was a sublisting of
the actual state). -/
theorem ensureGo_success_mem (ok : String → Bool) (ex : List String) :
    ∀ (req : List String) (s : PC.State) (c : List String),
    (PC.ensureGo ok ex req s c).2.1 = true →
    (∀ m ∈ ex, m ∈ PC.list_index_names s) →
    ∀ n ∈ req, n ∈ PC.list_index_names (PC.ensureGo ok ex req s c).1 := by
  intro req
  induction req with
  | nil => intro s c _ _ n hn; simp at hn
  | cons n ns ih =>
      intro s c hsucc hex m hm
      by_cases hn : n ∈ ex
      · rw [PC.ensureGo] at hsucc ⊢
        simp only [hn, if_true] at hsucc ⊢
        rcases List.mem_cons.mp hm with rfl | hm'
        · exact ensureGo_names_mono ok ex ns s c m (hex m hn)
        · exact ih s c hsucc hex m hm'
      · by_cases hok : ok n = true
        · rw [PC.ensureGo] at hsucc ⊢
          simp only [hn, if_false, hok, if_true] at hsucc ⊢
          have hexp2 : ∀ x ∈ ex, x ∈ PC.list_index_names (PC.create_index_raw s n) := by
            intro x hx
            rw [PC.create_index_raw, PC.list_index_names, List.map_append]
            exact List.mem_append_left _ (hex x hx)
          rcases List.mem_cons.mp hm with rfl | hm'
          · have : m ∈ PC.list_index_names (PC.create_index_raw s m) := by
              rw [PC.create_index_raw, PC.list_index_names, List.map_append]
              simp
            exact ensureGo_names_mono ok ex ns _ _ m this
          · exact ih (PC.create_index_raw s n) (c ++ [n]) hsucc hexp2 m hm'
        · rw [PC.ensureGo] at hsucc
          simp [hn, hok] at hsucc

/-- Helper: when every requested name is already listed, the ensure
loop is a complete no-op that reports success and creates nothing. -/
theorem ensureGo_allMem (ok : String → Bool) (ex : List String) :
    ∀ (req : List String) (s : PC.State) (c : List String),
    (∀ n ∈ req, n ∈ ex) → PC.ensureGo ok ex req s c = (s, true, c) := by
  intro req
  induction req with
  | nil => intro s c _; rfl
  | cons n ns ih =>
      intro s c h
      rw [PC.ensureGo]
      simp only [h n (List.mem_cons_self _ _), if_true]
      exact ih s c fun m hm => h m (List.mem_cons_of_mem _ hm)

/-- Helper: when the provider accepts every creation, the ensure loop
always reports success. -/
theorem ensureGo_ok_true (ok : String → Bool) (ex : List String)
    (hok : ∀ n, ok n = true) :
    ∀ (req : List String) (s : PC.State) (c : List String),
    (PC.ensureGo ok ex req s c).2.1 = true := by
  intro req
  induction req with
  | nil => intro s c; rfl
  | cons n ns ih =>
      intro s c
      rw [PC.ensureGo]
      by_cases hn : n ∈ ex
      · simpa [hn] using ih s c
      · simpa [hn, hok n] using ih (PC.create_index_raw s n) (c ++ [n])

/-- C7: if a first `ensure_indexes_exist` call succeeded, a second call
(under any provider behaviour) is a complete no-op: it returns the very
same index state, reports success (`True`) and creates nothing; and
`manage_db.create_index` is idempotent on every index name. -/
theorem c7_ensure_indexes_idempotent (ok okSecond : String → Bool) (s : PC.State)
    (h : (PC.ensure_indexes_exist ok s).2.1 = true) :
    PC.ensure_indexes_exist okSecond (PC.ensure_indexes_exist ok s).1
      = ((PC.ensure_indexes_exist ok s).1, true, []) ∧
    (∀ n, PC.create_index (PC.create_index s n) n = PC.create_index s n) := by
  constructor
  · have hmem : ∀ n ∈ PC.required_indexes,
        n ∈ PC.list_index_names (PC.ensure_indexes_exist ok s).1 := by
      intro n hn
      exact ensureGo_success_mem ok (PC.list_index_names s) PC.required_indexes s [] h
        (fun m hm => hm) n hn
    exact ensureGo_allMem okSecond _ PC.required_indexes _ [] hmem
  · intro n
    by_cases hn : n ∈ PC.list_index_names s
    · simp [PC.create_index, hn]
    · have h1 : PC.create_index s n = PC.create_index_raw s n := by
        rw [PC.create_index, if_neg hn]
      have h2 : n ∈ PC.list_index_names (PC.create_index_raw s n) := by
        rw [PC.create_index_raw, PC.list_index_names, List.map_append]
        simp
      rw [h1, PC.create_index, if_pos h2]

/-- C7 witness: starting from an empty control plane with an
always-accepting provider, the first call succeeds and the second is
the no-op the theorem promises. -/
theorem c7_ensure_indexes_idempotent_witness :
    PC.ensure_indexes_exist (fun _ => true)
        (PC.ensure_indexes_exist (fun _ => true) []).1
      = ((PC.ensure_indexes_exist (fun _ => true) []).1, true, []) :=
  (c7_ensure_indexes_idempotent (fun _ => true) (fun _ => true) [] (by decide)).1

/-- C8 counterexample: with a pre-existing hotels index of dimension
512 and euclidean metric — both different from the configured 1024 and
cosine — `ensure_indexes_exist` succeeds silently (returns `True`) and
leaves the mismatched configuration in place: no mismatch is detected
and no failure of any kind is raised. -/
theorem c8_counterexample :
    (PC.ensure_indexes_exist (fun _ => true) Fix.sBad).2.1 = true ∧
    List.lookup "hotels" (PC.ensure_indexes_exist (fun _ => true) Fix.sBad).1
      = some { dimension := 512, metric := "euclidean" } ∧
    (512 : Nat) ≠ 1024 ∧ "euclidean" ≠ "cosine" := by
  refine ⟨by decide, by decide, by decide, by decide⟩

/-- C8 amended: `ensure_indexes_exist` never alters an existing index's
stored configuration (dimension and metric are preserved verbatim for
every existing name), but it performs no configuration check at all:
whenever the provider accepts the creations of the missing names the
call succeeds, regardless of any dimensionality or metric mismatch of
the existing indexes — there is no `IndexConfigMismatchError` anywhere
in the code. -/
theorem c8_amended_no_mismatch_check (ok : String → Bool) (s : PC.State) :
    (∀ n v, List.lookup n s = some v →
      List.lookup n (PC.ensure_indexes_exist ok s).1 = some v) ∧
    ((∀ n, ok n = true) → (PC.ensure_indexes_exist ok s).2.1 = true) := by
  constructor
  · intro n v hnv
    obtain ⟨t, ht, -⟩ :=
      ensureGo_append ok (PC.list_index_names s) PC.required_indexes s []
    rw [PC.ensure_indexes_exist, ht]
    exact lookup_append_some n v s t hnv
  · intro hok
    exact ensureGo_ok_true ok _ hok PC.required_indexes s []

/-- C8 witness: the amended theorem applied to the mismatched state —
the 512-dimensional euclidean hotels entry is preserved verbatim and
the call reports success. -/
theorem c8_amended_no_mismatch_check_witness :
    List.lookup "hotels" (PC.ensure_indexes_exist (fun _ => true) Fix.sBad).1
      = some { dimension := 512, metric := "euclidean" } ∧
    (PC.ensure_indexes_exist (fun _ => true) Fix.sBad).2.1 = true :=
  ⟨(c8_amended_no_mismatch_check (fun _ => true) Fix.sBad).1 "hotels" _ (by decide),
   (c8_amended_no_mismatch_check (fun _ => true) Fix.sBad).2 (fun _ => rfl)⟩

/-- Helper: after an upsert, looking up the upserted id finds the new
record. -/
theorem lookup_upsertRec_self (s : PC.RecIndex) (a : String) (r : PC.Record) :
    List.lookup a (PC.upsertRec s (a, r)) = some r := by
  induction s with
  | nil => simp [PC.upsertRec, List.lookup]
  | cons e s' ih =>
      obtain ⟨k, w⟩ := e
      by_cases hk : k = a
      · simp [PC.upsertRec, hk, List.lookup]
      · have hbeq : (a == k) = false := beq_eq_false_iff_ne.mpr (Ne.symm hk)
        simp only [PC.upsertRec, hk, if_false, List.lookup, hbeq]
        exact ih

/-- Helper: an upsert leaves lookups of every other id unchanged. -/
theorem lookup_upsertRec_ne (s : PC.RecIndex) (a n : String) (r : PC.Record)
    (h : n ≠ a) :
    List.lookup n (PC.upsertRec s (a, r)) = List.lookup n s := by
  induction s with
  | nil => simp [PC.upsertRec, List.lookup, beq_eq_false_iff_ne.mpr h]
  | cons e s' ih =>
      obtain ⟨k, w⟩ := e
      by_cases hk : k = a
      · subst hk
        simp [PC.upsertRec, List.lookup, beq_eq_false_iff_ne.mpr h]
      · simp only [PC.upsertRec, hk, if_false, List.lookup]
        cases hnk : (n == k) with
        | true => rfl
        | false => exact ih

/-- Helper: upserting a record identical to the one already stored at
that id is a no-op. -/
theorem upsertRec_of_lookup_eq (s : PC.RecIndex) (a : String) (r : PC.Record)
    (h : List.lookup a s = some r) :
    PC.upsertRec s (a, r) = s := by
  induction s with
  | nil => simp [List.lookup] at h
  | cons e s' ih =>
      obtain ⟨k, w⟩ := e
      by_cases hk : k = a
      · have hbeq : (a == k) = true := beq_iff_eq.mpr hk.symm
        simp only [List.lookup, hbeq] at h
        have hw : w = r := by simpa using h
        simp [PC.upsertRec, hk, hw]
      · have hbeq : (a == k) = false := beq_eq_false_iff_ne.mpr (Ne.symm hk)
        simp only [List.lookup, hbeq] at h
        simp [PC.upsertRec, hk, ih h]

/-- Helper: upserting a fresh id appends the record. -/
theorem upsertRec_not_mem (s : PC.RecIndex) (a : String) (r : PC.Record)
    (h : a ∉ s.map Prod.fst) :
    PC.upsertRec s (a, r) = s ++ [(a, r)] := by
  induction s with
  | nil => rfl
  | cons e s' ih =>
      obtain ⟨k, w⟩ := e
      have hk : ¬ (k = a) := by
        intro hka
        exact h (by simp [hka])
      simp only [PC.upsertRec, hk, if_false, List.cons_append, List.cons.injEq, true_and]
      exact ih fun hm => h (List.mem_cons_of_mem _ hm)

/-- Helper: three upserts under pairwise-distinct ids, replayed a
second time with identical records, leave the store unchanged. -/
theorem upsert3_idem (db : PC.RecIndex) (e1 e2 e3 : String × PC.Record)
    (h12 : e1.1 ≠ e2.1) (h13 : e1.1 ≠ e3.1) (h23 : e2.1 ≠ e3.1) :
    PC.upsertRec (PC.upsertRec (PC.upsertRec
      (PC.upsertRec (PC.upsertRec (PC.upsertRec db e1) e2) e3) e1) e2) e3
      = PC.upsertRec (PC.upsertRec (PC.upsertRec db e1) e2) e3 := by
  obtain ⟨a1, r1⟩ := e1
  obtain ⟨a2, r2⟩ := e2
  obtain ⟨a3, r3⟩ := e3
  simp only [ne_eq] at h12 h13 h23
  have l1 : List.lookup a1
      (PC.upsertRec (PC.upsertRec (PC.upsertRec db (a1, r1)) (a2, r2)) (a3, r3))
      = some r1 := by
    rw [lookup_upsertRec_ne _ _ _ _ h13, lookup_upsertRec_ne _ _ _ _ h12,
      lookup_upsertRec_self]
  rw [upsertRec_of_lookup_eq _ _ _ l1]
  have l2 : List.lookup a2
      (PC.upsertRec (PC.upsertRec (PC.upsertRec db (a1, r1)) (a2, r2)) (a3, r3))
      = some r2 := by
    rw [lookup_upsertRec_ne _ _ _ _ h23, lookup_upsertRec_self]
  rw [upsertRec_of_lookup_eq _ _ _ l2]
  have l3 : List.lookup a3
      (PC.upsertRec (PC.upsertRec (PC.upsertRec db (a1, r1)) (a2, r2)) (a3, r3))
      = some r3 := by
    rw [lookup_upsertRec_self]
  rw [upsertRec_of_lookup_eq _ _ _ l3]

/-- Helper: the three seeded ids are each present (with their records)
after the three upserts. -/
theorem upsert3_lookups (db : PC.RecIndex) (e1 e2 e3 : String × PC.Record)
    (h12 : e1.1 ≠ e2.1) (h13 : e1.1 ≠ e3.1) (h23 : e2.1 ≠ e3.1) :
    List.lookup e1.1 (PC.upsertRec (PC.upsertRec (PC.upsertRec db e1) e2) e3) = some e1.2 ∧
    List.lookup e2.1 (PC.upsertRec (PC.upsertRec (PC.upsertRec db e1) e2) e3) = some e2.2 ∧
    List.lookup e3.1 (PC.upsertRec (PC.upsertRec (PC.upsertRec db e1) e2) e3) = some e3.2 := by
  obtain ⟨a1, r1⟩ := e1
  obtain ⟨a2, r2⟩ := e2
  obtain ⟨a3, r3⟩ := e3
  simp only [ne_eq] at h12 h13 h23
  refine ⟨?_, ?_, ?_⟩
  · rw [lookup_upsertRec_ne _ _ _ _ h13, lookup_upsertRec_ne _ _ _ _ h12,
      lookup_upsertRec_self]
  · rw [lookup_upsertRec_ne _ _ _ _ h23, lookup_upsertRec_self]
  · rw [lookup_upsertRec_self]


/-- C9: `seed_destination_data` writes each catalog destination under
the deterministic id `dest_` + lowercased name, so seeding twice (with
the same deterministic embedding oracle) leaves the store exactly as
after one seeding — per-destination record counts included — and each
destination id is present after seeding. -/
theorem c9_seed_deterministic_overwrite (embed : String → List ℚ) (db : PC.RecIndex) :
    PC.seed_destination_data embed (PC.seed_destination_data embed db)
      = PC.seed_destination_data embed db ∧
    PC.destId "Kodaikanal" = "dest_kodaikanal" ∧
    PC.destId "Munnar" = "dest_munnar" ∧
    PC.destId "Ooty" = "dest_ooty" ∧
    (List.lookup "dest_kodaikanal" (PC.seed_destination_data embed db)).isSome = true ∧
    (List.lookup "dest_munnar" (PC.seed_destination_data embed db)).isSome = true ∧
    (List.lookup "dest_ooty" (PC.seed_destination_data embed db)).isSome = true ∧
    ((PC.seed_destination_data embed (PC.seed_destination_data embed db)).map Prod.fst).count "dest_kodaikanal"
      = ((PC.seed_destination_data embed db).map Prod.fst).count "dest_kodaikanal" ∧
    ((PC.seed_destination_data embed (PC.seed_destination_data embed db)).map Prod.fst).count "dest_munnar"
      = ((PC.seed_destination_data embed db).map Prod.fst).count "dest_munnar" ∧
    ((PC.seed_destination_data embed (PC.seed_destination_data embed db)).map Prod.fst).count "dest_ooty"
      = ((PC.seed_destination_data embed db).map Prod.fst).count "dest_ooty" := by
  have hunfold : ∀ x : PC.RecIndex, PC.seed_destination_data embed x
      = PC.upsertRec (PC.upsertRec (PC.upsertRec x
          (PC.seedEntry embed ("Kodaikanal", PC.kodaikanalDetails)))
          (PC.seedEntry embed ("Munnar", PC.munnarDetails)))
          (PC.seedEntry embed ("Ooty", PC.ootyDetails)) := fun x => rfl
  have h12 : (PC.seedEntry embed ("Kodaikanal", PC.kodaikanalDetails)).1
      ≠ (PC.seedEntry embed ("Munnar", PC.munnarDetails)).1 := by
    show PC.destId "Kodaikanal" ≠ PC.destId "Munnar"
    decide
  have h13 : (PC.seedEntry embed ("Kodaikanal", PC.kodaikanalDetails)).1
      ≠ (PC.seedEntry embed ("Ooty", PC.ootyDetails)).1 := by
    show PC.destId "Kodaikanal" ≠ PC.destId "Ooty"
    decide
  have h23 : (PC.seedEntry embed ("Munnar", PC.munnarDetails)).1
      ≠ (PC.seedEntry embed ("Ooty", PC.ootyDetails)).1 := by
    show PC.destId "Munnar" ≠ PC.destId "Ooty"
    decide
  have hidem : PC.seed_destination_data embed (PC.seed_destination_data embed db)
      = PC.seed_destination_data embed db := by
    rw [hunfold, hunfold]
    exact upsert3_idem db _ _ _ h12 h13 h23
  have hlook := upsert3_lookups db
    (PC.seedEntry embed ("Kodaikanal", PC.kodaikanalDetails))
    (PC.seedEntry embed ("Munnar", PC.munnarDetails))
    (PC.seedEntry embed ("Ooty", PC.ootyDetails)) h12 h13 h23
  have hkey1 : (PC.seedEntry embed ("Kodaikanal", PC.kodaikanalDetails)).1
      = "dest_kodaikanal" := by
    show PC.destId "Kodaikanal" = "dest_kodaikanal"
    decide
  have hkey2 : (PC.seedEntry embed ("Munnar", PC.munnarDetails)).1
      = "dest_munnar" := by
    show PC.destId "Munnar" = "dest_munnar"
    decide
  have hkey3 : (PC.seedEntry embed ("Ooty", PC.ootyDetails)).1
      = "dest_ooty" := by
    show PC.destId "Ooty" = "dest_ooty"
    decide
  refine ⟨hidem, by decide, by decide, by decide, ?_, ?_, ?_,
    by rw [hidem], by rw [hidem], by rw [hidem]⟩
  · rw [hunfold, ← hkey1, hlook.1]
    rfl
  · rw [hunfold, ← hkey2, hlook.2.1]
    rfl
  · rw [hunfold, ← hkey3, hlook.2.2]
    rfl

/-- C10: `add_data_to_index` upserts under a freshly drawn random id,
so two calls with identical text and metadata but distinct fresh ids
(both unused in the store) append two distinct records under two
distinct ids: the store grows by exactly two entries, the first record
is untouched by the second call, and both are retrievable under their
own ids. -/
theorem c10_add_data_appends (embed : String → List ℚ) (id1 id2 : String)
    (db : PC.RecIndex) (text : String) (m : PC.Meta)
    (h12 : id1 ≠ id2)
    (h1 : id1 ∉ db.map Prod.fst) (h2 : id2 ∉ db.map Prod.fst) :
    PC.add_data_to_index embed id2 (PC.add_data_to_index embed id1 db text m) text m
      = db ++ [(id1, ⟨embed text, ("text", .str text) :: m⟩),
               (id2, ⟨embed text, ("text", .str text) :: m⟩)] ∧
    (PC.add_data_to_index embed id2 (PC.add_data_to_index embed id1 db text m) text m).length
      = db.length + 2 ∧
    List.lookup id1 (PC.add_data_to_index embed id2 (PC.add_data_to_index embed id1 db text m) text m)
      = some ⟨embed text, ("text", .str text) :: m⟩ ∧
    List.lookup id2 (PC.add_data_to_index embed id2 (PC.add_data_to_index embed id1 db text m) text m)
      = some ⟨embed text, ("text", .str text) :: m⟩ := by
  have hstep1 : PC.add_data_to_index embed id1 db text m
      = db ++ [(id1, ⟨embed text, ("text", .str text) :: m⟩)] :=
    upsertRec_not_mem db id1 _ h1
  have h2' : id2 ∉ (db ++ [(id1, (⟨embed text, ("text", .str text) :: m⟩ : PC.Record))]).map Prod.fst := by
    rw [List.map_append]
    intro hmem
    rcases List.mem_append.mp hmem with hl | hr
    · exact h2 hl
    · simp at hr
      exact h12 hr.symm
  have hstep2 : PC.add_data_to_index embed id2 (PC.add_data_to_index embed id1 db text m) text m
      = db ++ [(id1, ⟨embed text, ("text", .str text) :: m⟩),
               (id2, ⟨embed text, ("text", .str text) :: m⟩)] := by
    rw [PC.add_data_to_index, hstep1]
    rw [upsertRec_not_mem _ id2 _ h2']
    simp
  have hnone1 : List.lookup id1 db = none :=
    lookup_none_of_keys_ne id1 db fun e he heq => h1 (heq ▸ List.mem_map_of_mem Prod.fst he)
  have hnone2 : List.lookup id2 db = none :=
    lookup_none_of_keys_ne id2 db fun e he heq => h2 (heq ▸ List.mem_map_of_mem Prod.fst he)
  refine ⟨hstep2, ?_, ?_, ?_⟩
  · rw [hstep2]
    simp
  · rw [hstep2, lookup_append_none _ _ _ hnone1]
    simp [List.lookup]
  · rw [hstep2, lookup_append_none _ _ _ hnone2]
    have hne : (id2 == id1) = false := beq_eq_false_iff_ne.mpr (Ne.symm h12)
    simp [List.lookup, hne]

/-- C10 witness: two adds with fresh ids aa and bb on the empty store
append two records retrievable under their own ids. -/
theorem c10_add_data_appends_witness :
    PC.add_data_to_index (fun _ => []) "bb"
        (PC.add_data_to_index (fun _ => []) "aa" [] "t" []) "t" []
      = [("aa", ⟨[], [("text", .str "t")]⟩), ("bb", ⟨[], [("text", .str "t")]⟩)] ∧
    List.lookup "aa"
        (PC.add_data_to_index (fun _ => []) "bb"
          (PC.add_data_to_index (fun _ => []) "aa" [] "t" []) "t" [])
      = some ⟨[], [("text", .str "t")]⟩ := by
  have h := c10_add_data_appends (fun _ => []) "aa" "bb" [] "t" []
    (by decide) (by simp) (by simp)
  exact ⟨h.1, h.2.2.1⟩

/-- C6 counterexample: two different remote-endpoint behaviours — one
failing on the first input text a with status 500, the other failing on
the second input text b with the same status — produce the very same
raised failure value on the input `["a", "b"]`; the failure therefore
carries the provider status but cannot carry (and does not carry) the
index of the input text that failed. -/
theorem c6_counterexample :
    Jina.embed_documents Fix.apiFail0 ["a", "b"]
      = Except.error "API Request Failed: 500" ∧
    Jina.embed_documents Fix.apiFail1 ["a", "b"]
      = Except.error "API Request Failed: 500" ∧
    (Fix.apiFail0 "a").1 ≠ 200 ∧
    (Fix.apiFail1 "a").1 = 200 ∧ (Fix.apiFail1 "b").1 ≠ 200 ∧
    Jina.embed_documents Fix.apiFail0 ["a", "b"]
      = Jina.embed_documents Fix.apiFail1 ["a", "b"] := by
  refine ⟨rfl, rfl, by decide, by decide, by decide, rfl⟩

/-- C6 amended: `embed_documents` embeds the texts in input order, one
remote call per text; when every response is successful it returns the
embeddings one-to-one in order, and on the first non-success response
it fails with the exception message API Request Failed: followed by the
provider status — the message carries the status but not the index of
the failing input. -/
theorem c6_amended_embed_failure (api : Jina.Api) :
    (∀ texts : List String, (∀ t ∈ texts, (api t).1 = 200) →
      Jina.embed_documents api texts = Except.ok (texts.map (fun t => (api t).2))) ∧
    (∀ (pre : List String) (t : String) (post : List String),
      (∀ u ∈ pre, (api u).1 = 200) → (api t).1 ≠ 200 →
      Jina.embed_documents api (pre ++ t :: post)
        = Except.error ("API Request Failed: " ++ toString (api t).1)) := by
  constructor
  · intro texts hok
    induction texts with
    | nil => rfl
    | cons u us ih =>
        rw [Jina.embed_documents]
        rw [if_pos (hok u (List.mem_cons_self _ _))]
        rw [ih fun x hx => hok x (List.mem_cons_of_mem _ hx)]
        rfl
  · intro pre t post hpre ht
    induction pre with
    | nil =>
        rw [List.nil_append, Jina.embed_documents, if_neg ht]
    | cons u us ih =>
        rw [List.cons_append, Jina.embed_documents,
          if_pos (hpre u (List.mem_cons_self _ _)),
          ih fun x hx => hpre x (List.mem_cons_of_mem _ hx)]

/-- C6 witness: the amended failure case applied to the concrete
endpoint rejecting the second text b of `["a", "b"]` with status 500. -/
theorem c6_amended_embed_failure_witness :
    Jina.embed_documents Fix.apiFail1 ["a", "b"]
      = Except.error ("API Request Failed: " ++ toString (Fix.apiFail1 "b").1) :=
  (c6_amended_embed_failure Fix.apiFail1).2 ["a"] "b" []
    (by decide) (by decide)
